import Mathlib

/-
Verification of the thread-control repository (two Rust source files:
src/lib.rs, the cancellation Flag/Control pair, and src/request.rs, the
single-slot Requester/Responder rendezvous).

Shallow embedding conventions:
- The rendezvous slot (an Arc<Mutex<State<I,O>>> shared by both sides) is the
  structure Conn: responderAlive models whether the Responder (the sole
  strong Arc holder) still exists, so the Requester weak upgrade succeeds
  exactly when responderAlive is true; poisoned models mutex poisoning;
  state is the four-state slot value.
- Each critical section of the Rust code is one Lean function on Conn.
  A Rust panic while holding the lock (the fatal contract violations) is the
  fatal constructor and poisons the mutex; at the panic point the slot holds
  whatever the code last wrote (State.InProgress, written by mem::replace
  before the match).
- The waiting loop of Requester::request interacts with the mutex through
  try_lock.  That interaction is modelled by a trace of try_lock outcomes
  TryObs: acquired s means try_lock succeeded and the slot held s (this is
  forced whenever no other thread holds the lock, in particular at every
  attempt while the responder performs no activity, where s is the state the
  requester itself deposited); wouldBlock e means the lock was held by the
  other side and the elapsed time at the check was e; poisonedObs means
  try_lock reported poisoning.
- The cancellation pair is the structure CtrlState: flagExists models
  whether the Flag object (sole strong holder of the alive atomic) has been
  dropped, so Control.alive.upgrade() succeeds exactly when flagExists;
  alive and interrupted are the two atomic booleans.  Durations and
  instants are natural numbers.
-/

namespace ThreadControl

/-- The error enum of src/request.rs. -/
inductive Error : Type where
  | ThreadDead
  | Timeout
  | Busy
  | WrongState
deriving DecidableEq, Repr

/-- The four-state slot value State<I, O> of src/request.rs.
Spec vocabulary: Free = Empty, Request = Requested, InProgress = InFlight,
Response = Replied. -/
inductive State (I O : Type) : Type where
  | Free
  | Request (i : I)
  | InProgress
  | Response (o : O)
deriving DecidableEq, Repr

/-- The shared rendezvous connection: whether the responder (sole strong
holder of the slot) still exists, whether the mutex is poisoned, and the
slot state. -/
structure Conn (I O : Type) : Type where
  responderAlive : Bool
  poisoned : Bool
  state : State I O
deriving DecidableEq, Repr

/-- The connection produced by the interaction factory: both halves exist
and the slot is initialized Empty. -/
def interaction {I O : Type} : Conn I O :=
  ⟨true, false, State.Free⟩

/-- Outcome of one Responder.get_request call: a normal return with the
optional input and the connection afterwards, or a fatal panic (which
poisons the mutex, the slot holding what was last written). -/
inductive GetResult (I O : Type) : Type where
  | ret (r : Option I) (w : Conn I O)
  | fatal (w : Conn I O)
deriving DecidableEq, Repr

/-- Responder.get_request of src/request.rs.  Lock poisoned: returns none,
slot untouched.  Otherwise the code replaces the slot with InProgress and
matches the old value: Request i yields some i (slot left InProgress);
Free restores Free and yields none; Response keeps none of it — the reply
is dropped, the slot is left InProgress (the code has no restoring
mem::replace in this arm); InProgress panics. -/
def Responder.get_request {I O : Type} (w : Conn I O) : GetResult I O :=
  if w.poisoned then GetResult.ret none w
  else
    match w.state with
    | State.Request i => GetResult.ret (some i) {w with state := State.InProgress}
    | State.Free => GetResult.ret none {w with state := State.Free}
    | State.Response _ => GetResult.ret none {w with state := State.InProgress}
    | State.InProgress => GetResult.fatal {w with poisoned := true, state := State.InProgress}

/-- Outcome of one Responder.set_response call: a normal return with the
connection afterwards, or a fatal panic (mutex poisoned). -/
inductive SetResult (I O : Type) : Type where
  | ret (w : Conn I O)
  | fatal (w : Conn I O)
deriving DecidableEq, Repr

/-- Responder.set_response of src/request.rs.  Lock poisoned: silently
dropped.  Otherwise the old slot value is replaced by InProgress and
matched: InProgress or Request _ become Response v; Response _ and Free
panic (slot holding InProgress at the panic). -/
def Responder.set_response {I O : Type} (w : Conn I O) (v : O) : SetResult I O :=
  if w.poisoned then SetResult.ret w
  else
    match w.state with
    | State.InProgress => SetResult.ret {w with state := State.Response v}
    | State.Request _ => SetResult.ret {w with state := State.Response v}
    | State.Response _ => SetResult.fatal {w with poisoned := true, state := State.InProgress}
    | State.Free => SetResult.fatal {w with poisoned := true, state := State.InProgress}

/-- Outcome of the deposit phase of Requester.request (upgrade the weak
reference, lock, and either store Request value or fail). -/
inductive DepositResult (I O : Type) : Type where
  | proceed (w : Conn I O)
  | fail (e : Error) (w : Conn I O)
deriving DecidableEq, Repr

/-- The deposit phase of Requester.request (src/request.rs lines 44-57):
a dead responder means the weak upgrade fails (ThreadDead); a poisoned
mutex makes lock() return Err (ThreadDead); a Free slot receives
Request value; any other slot state fails Busy with nothing written. -/
def requestDeposit {I O : Type} (w : Conn I O) (value : I) : DepositResult I O :=
  if w.responderAlive = false then DepositResult.fail Error.ThreadDead w
  else if w.poisoned then DepositResult.fail Error.ThreadDead w
  else
    match w.state with
    | State.Free => DepositResult.proceed {w with state := State.Request value}
    | _ => DepositResult.fail Error.Busy w

/-- One try_lock outcome offered to the waiting loop of Requester.request:
acquired s (the lock was free and the slot held s — forced whenever the
responder is idle), wouldBlock e (the lock was held elsewhere, elapsed time
e at this attempt), or poisonedObs. -/
inductive TryObs (I O : Type) : Type where
  | acquired (s : State I O)
  | wouldBlock (elapsed : Nat)
  | poisonedObs
deriving DecidableEq, Repr

/-- The waiting loop of Requester.request (src/request.rs lines 58-80) over
a trace of try_lock outcomes.  On a successful acquire the code replaces
the slot with Free unconditionally and returns Ok o if the old value was
Response o, Err WrongState otherwise; on WouldBlock it returns Timeout
when a timeout was given and the elapsed time has reached it, else yields
and retries; on poisoning it returns ThreadDead.  The result pairs the
call result with the slot value the requester wrote at exit (none when it
never touched the slot); a trace exhausted without a decision means the
loop is still spinning (none). -/
def requestLoop {I O : Type} (timeout : Option Nat) :
    List (TryObs I O) → Option (Except Error O × Option (State I O))
  | [] => none
  | TryObs.acquired s :: _ =>
    match s with
    | State.Response o => some (Except.ok o, some State.Free)
    | _ => some (Except.error Error.WrongState, some State.Free)
  | TryObs.wouldBlock elapsed :: rest =>
    (match timeout with
     | some d => if d ≤ elapsed then some (Except.error Error.Timeout, none)
                 else requestLoop timeout rest
     | none => requestLoop timeout rest)
  | TryObs.poisonedObs :: _ => some (Except.error Error.ThreadDead, none)

/-- Requester.request of src/request.rs: deposit phase, then the waiting
loop over the given try_lock trace.  Returns the call result with the
connection afterwards; none when the trace ended with the loop still
spinning. -/
def Requester.request {I O : Type} (w : Conn I O) (value : I) (timeout : Option Nat)
    (trace : List (TryObs I O)) : Option (Except Error O × Conn I O) :=
  match requestDeposit w value with
  | DepositResult.fail e w1 => some (Except.error e, w1)
  | DepositResult.proceed w1 =>
    (requestLoop timeout trace).map (fun p =>
      (p.1, match p.2 with
            | some s => {w1 with state := s}
            | none => w1))

/-- Responder-side calls: get_request or set_response v. -/
inductive ROp (O : Type) : Type where
  | get
  | set (o : O)
deriving DecidableEq, Repr

/-- Runs a sequence of responder calls, collecting the results of the
get_request calls.  A fatal call (panic) ends the run: the panicking
responder thread executes nothing further. -/
def runResponder {I O : Type} : List (ROp O) → Conn I O → Conn I O × List (Option I)
  | [], w => (w, [])
  | ROp.get :: rest, w =>
    (match Responder.get_request w with
     | GetResult.ret r w1 =>
       let p := runResponder rest w1
       (p.1, r :: p.2)
     | GetResult.fatal w1 => (w1, []))
  | ROp.set o :: rest, w =>
    (match Responder.set_response w o with
     | SetResult.ret w1 => runResponder rest w1
     | SetResult.fatal w1 => (w1, []))

/-- The shared state of the cancellation pair of src/lib.rs: whether the
Flag object still exists (the Control holds only a weak reference to the
alive atomic, so upgrade succeeds exactly while the flag lives), and the
two atomic booleans. -/
structure CtrlState : Type where
  flagExists : Bool
  alive : Bool
  interrupted : Bool
deriving DecidableEq, Repr

/-- make_pair of src/lib.rs: Flag.new gives alive = true, interrupted =
false, and the flag object exists. -/
def make_pair : CtrlState :=
  ⟨true, true, false⟩

/-- Outcome of a Flag.alive call: either a normal boolean return or the
panic raised when interrupted was observed true. -/
inductive AliveResult : Type where
  | panicked
  | returned (b : Bool)
deriving DecidableEq, Repr

/-- Flag.alive of src/lib.rs: panics if interrupted is set, otherwise
returns the alive atomic. -/
def Flag.alive (s : CtrlState) : AliveResult :=
  if s.interrupted then AliveResult.panicked else AliveResult.returned s.alive

/-- Drop for Flag of src/lib.rs: the flag object goes away; if the thread
is unwinding from a panic the interrupt atomic is stored true, otherwise
it is left alone. -/
def Flag.dropFlag (panicking : Bool) (s : CtrlState) : CtrlState :=
  { s with flagExists := false, interrupted := s.interrupted || panicking }

/-- Control.interrupt of src/lib.rs: store true into the interrupt atomic. -/
def Control.interrupt (s : CtrlState) : CtrlState :=
  { s with interrupted := true }

/-- Control.stop of src/lib.rs: upgrade the weak alive reference and store
false when the flag still exists; a no-op once the flag is gone. -/
def Control.stop (s : CtrlState) : CtrlState :=
  if s.flagExists then { s with alive := false } else s

/-- Control.is_done of src/lib.rs: true exactly when the weak upgrade of
the alive atomic fails, i.e. the flag object has been dropped. -/
def Control.is_done (s : CtrlState) : Bool :=
  !s.flagExists

/-- Control.is_interrupted of src/lib.rs: reads the interrupt atomic. -/
def Control.is_interrupted (s : CtrlState) : Bool :=
  s.interrupted

/-- The state-mutating operations available on a cancellation pair: the
controller calls interrupt and stop, the worker polls alive (no state
effect) and eventually drops the flag (normally or while panicking). -/
inductive COp : Type where
  | interrupt
  | stop
  | alivePoll
  | dropFlag (panicking : Bool)
deriving DecidableEq, Repr

/-- Effect of one operation on the shared cancellation state. -/
def execOp : COp → CtrlState → CtrlState
  | COp.interrupt, s => Control.interrupt s
  | COp.stop, s => Control.stop s
  | COp.alivePoll, s => s
  | COp.dropFlag b, s => Flag.dropFlag b s

/-- Effect of a sequence of operations, first to last. -/
def execOps (ops : List COp) (s : CtrlState) : CtrlState :=
  ops.foldl (fun t op => execOp op t) s

/-- A slot with no pending request keeps that property across a normal
get_request return, and the call yields none. -/
theorem get_request_noReq {I O : Type} {w : Conn I O} {r : Option I} {w1 : Conn I O}
    (hnr : ∀ x : I, w.state ≠ State.Request x)
    (h : Responder.get_request w = GetResult.ret r w1) :
    r = none ∧ ∀ x : I, w1.state ≠ State.Request x := by
  obtain ⟨a, p, st⟩ := w
  cases p with
  | true =>
    simp [Responder.get_request] at h
    rcases h with ⟨rfl, rfl⟩
    exact ⟨rfl, hnr⟩
  | false =>
    cases st with
    | Free =>
      simp [Responder.get_request] at h
      rcases h with ⟨rfl, rfl⟩
      exact ⟨rfl, fun x hx => by cases hx⟩
    | Request i => exact absurd rfl (hnr i)
    | InProgress => simp [Responder.get_request] at h
    | Response o =>
      simp [Responder.get_request] at h
      rcases h with ⟨rfl, rfl⟩
      exact ⟨rfl, fun x hx => by cases hx⟩

/-- A slot with no pending request keeps that property across a normal
set_response return. -/
theorem set_response_noReq {I O : Type} {w : Conn I O} {o : O} {w1 : Conn I O}
    (hnr : ∀ x : I, w.state ≠ State.Request x)
    (h : Responder.set_response w o = SetResult.ret w1) :
    ∀ x : I, w1.state ≠ State.Request x := by
  obtain ⟨a, p, st⟩ := w
  cases p with
  | true =>
    simp [Responder.set_response] at h
    subst h
    exact hnr
  | false =>
    cases st with
    | Free => simp [Responder.set_response] at h
    | Request i => exact absurd rfl (hnr i)
    | InProgress =>
      simp [Responder.set_response] at h
      subst h
      exact fun x hx => by cases hx
    | Response o2 => simp [Responder.set_response] at h

/-- Starting from a slot with no pending request, every get_request result
produced by a run of responder calls is none. -/
theorem runResponder_all_none {I O : Type} :
    ∀ (ops : List (ROp O)) (w : Conn I O),
      (∀ x : I, w.state ≠ State.Request x) →
      ((runResponder ops w).2.all Option.isNone) = true := by
  intro ops
  induction ops with
  | nil => intro w h; simp [runResponder]
  | cons op rest ih =>
    intro w h
    cases op with
    | get =>
      cases hg : Responder.get_request w with
      | ret r w1 =>
        obtain ⟨hr, hnr1⟩ := get_request_noReq h hg
        subst hr
        have h2 := ih w1 hnr1
        simp [runResponder, hg]
        simpa using h2
      | fatal w1 => simp [runResponder, hg]
    | set o =>
      cases hs : Responder.set_response w o with
      | ret w1 =>
        have h2 := ih w1 (set_response_noReq h hs)
        simp [runResponder, hs]
        simpa using h2
      | fatal w1 => simp [runResponder, hs]

/-- Once the flag object is gone no operation brings it back. -/
theorem execOp_flagExists_false {op : COp} {s : CtrlState}
    (h : s.flagExists = false) : (execOp op s).flagExists = false := by
  cases op <;>
    simp [execOp, Control.interrupt, Control.stop, Flag.dropFlag, h]

/-- Once the flag object is gone it stays gone across any sequence. -/
theorem execOps_flagExists_false :
    ∀ (ops : List COp) (s : CtrlState), s.flagExists = false →
      (execOps ops s).flagExists = false := by
  intro ops
  induction ops with
  | nil => intro s h; exact h
  | cons op rest ih =>
    intro s h
    exact ih (execOp op s) (execOp_flagExists_false h)

/-- An operation other than the flag drop leaves the flag in existence. -/
theorem execOp_flagExists_true {op : COp} {s : CtrlState}
    (h : s.flagExists = true) (hnd : ∀ b : Bool, op ≠ COp.dropFlag b) :
    (execOp op s).flagExists = true := by
  cases op with
  | interrupt => simpa [execOp, Control.interrupt] using h
  | stop => simp [execOp, Control.stop, h]
  | alivePoll => simpa [execOp] using h
  | dropFlag b => exact absurd rfl (hnd b)

/-- While no drop occurs in a sequence the flag keeps existing. -/
theorem execOps_flagExists_true :
    ∀ (ops : List COp) (s : CtrlState), s.flagExists = true →
      (∀ b : Bool, COp.dropFlag b ∉ ops) →
      (execOps ops s).flagExists = true := by
  intro ops
  induction ops with
  | nil => intro s h _; exact h
  | cons op rest ih =>
    intro s h hnd
    refine ih (execOp op s) (execOp_flagExists_true h ?_) ?_
    · intro b hb
      exact hnd b (hb ▸ List.mem_cons_self _ _)
    · intro b hb
      exact hnd b (List.mem_cons_of_mem _ hb)

/-- Updating the state field with the value it already holds changes
nothing. -/
theorem conn_update_state_self {I O : Type} {w : Conn I O} {s : State I O}
    (h : w.state = s) : {w with state := s} = w := by
  cases w
  cases h
  rfl

/-- C1: evaluation of the code at the failing input.  The claim says the
polling phase keeps attempting non-blocking acquires until the slot is
observed Replied, and that WrongState is returned only when the final
read finds the slot Empty.  In the code the loop exits at its first
successful try_lock and returns WrongState for every non-Replied read:
request 1 with no timeout on an Empty slot deposits Requested 1, the
first poll acquires the uncontended lock and reads Requested 1, and the
call returns WrongState with the slot reset to Empty, even though a
Replied 7 observation was available at the very next poll. -/
theorem c1_request_stops_at_first_acquire :
    Requester.request (interaction : Conn Nat Nat) 1 none
        [TryObs.acquired (State.Request 1), TryObs.acquired (State.Response 7)]
      = some (Except.error Error.WrongState, ⟨true, false, State.Free⟩) := rfl

/-- C2: evaluation of the code at the failing input.  The claim says
get_request on a Replied slot returns none and leaves the slot still
holding the same Replied value.  In the code the mem::replace that writes
InFlight is never undone in the Replied arm: get_request on Replied 7
returns none but leaves the slot InFlight, dropping the reply. -/
theorem c2_get_request_drops_reply :
    Responder.get_request (⟨true, false, State.Response 7⟩ : Conn Nat Nat)
      = GetResult.ret none ⟨true, false, State.InProgress⟩ := rfl

/-- C3: evaluation of the code at the failing input.  The claim says
request value (some duration) with a fully idle responder fails with
Timeout once the elapsed time reaches the duration, leaving the request
pending.  With an idle responder the lock is uncontended, so the first
try_lock of the waiting loop succeeds, reads the slot still Requested,
resets it to Empty and returns WrongState immediately: Timeout is
unreachable without lock contention and the pending request is destroyed. -/
theorem c3_request_timeout_unreachable :
    Requester.request (interaction : Conn Nat Nat) 1 (some 5)
        [TryObs.acquired (State.Request 1)]
      = some (Except.error Error.WrongState, ⟨true, false, State.Free⟩) := rfl

/-- C4: with the responder alive and the lock healthy, a request made
while the slot is in any state other than Empty fails with Busy
immediately, whatever the timeout and whatever the subsequent lock
behaviour would have been, and the connection is returned unchanged. -/
theorem c4_request_busy_no_overwrite {I O : Type} (w : Conn I O) (value : I)
    (timeout : Option Nat) (trace : List (TryObs I O))
    (halive : w.responderAlive = true) (hpoison : w.poisoned = false)
    (hstate : w.state ≠ State.Free) :
    Requester.request w value timeout trace
      = some (Except.error Error.Busy, w) := by
  have hdep : requestDeposit w value = DepositResult.fail Error.Busy w := by
    unfold requestDeposit
    rw [halive, hpoison]
    cases hs : w.state with
    | Free => exact absurd hs hstate
    | Request i => simp
    | InProgress => simp
    | Response o => simp
  unfold Requester.request
  rw [hdep]

/-- Witness for C4 at a concrete InFlight slot. -/
theorem c4_witness :
    Requester.request (⟨true, false, State.InProgress⟩ : Conn Nat Nat) 0 none []
      = some (Except.error Error.Busy, ⟨true, false, State.InProgress⟩) :=
  c4_request_busy_no_overwrite ⟨true, false, State.InProgress⟩ 0 none []
    rfl rfl (by decide)

/-- C5: dropping the flag while the worker is unwinding from a panic
stores true into the interrupt atomic whatever its previous value, so
is_interrupted reads true afterwards. -/
theorem c5_drop_panicking_sets_interrupted (s : CtrlState) :
    (Flag.dropFlag true s).interrupted = true
    ∧ Control.is_interrupted (Flag.dropFlag true s) = true := by
  constructor <;> simp [Flag.dropFlag, Control.is_interrupted]

/-- C6: Flag.alive panics when interrupted is already set, and otherwise
returns the current alive value, which a fresh pair initializes to true. -/
theorem c6_alive_panics_iff_interrupted (s : CtrlState) :
    (s.interrupted = true → Flag.alive s = AliveResult.panicked)
    ∧ (s.interrupted = false → Flag.alive s = AliveResult.returned s.alive)
    ∧ make_pair.alive = true
    ∧ Flag.alive make_pair = AliveResult.returned true := by
  refine ⟨fun h => ?_, fun h => ?_, rfl, rfl⟩ <;> simp [Flag.alive, h]

/-- Witness for C6 at concrete interrupted and non-interrupted states. -/
theorem c6_witness :
    Flag.alive ⟨true, true, true⟩ = AliveResult.panicked
    ∧ Flag.alive ⟨true, true, false⟩ = AliveResult.returned true :=
  ⟨(c6_alive_panics_iff_interrupted ⟨true, true, true⟩).1 rfl,
   (c6_alive_panics_iff_interrupted ⟨true, true, false⟩).2.1 rfl⟩

/-- C7: get_request transitions a Requested slot to InFlight returning
the input, is a no-op returning none on an Empty slot, is fatal on an
InFlight slot, and returns none leaving everything alone when the lock is
poisoned. -/
theorem c7_get_request_cases {I O : Type} (w : Conn I O) (i : I) :
    (w.poisoned = false → w.state = State.Request i →
      Responder.get_request w = GetResult.ret (some i) {w with state := State.InProgress})
    ∧ (w.poisoned = false → w.state = State.Free →
      Responder.get_request w = GetResult.ret none w)
    ∧ (w.poisoned = false → w.state = State.InProgress →
      Responder.get_request w
        = GetResult.fatal {w with poisoned := true, state := State.InProgress})
    ∧ (w.poisoned = true → Responder.get_request w = GetResult.ret none w) := by
  obtain ⟨a, p, st⟩ := w
  refine ⟨fun hp hs => ?_, fun hp hs => ?_, fun hp hs => ?_, fun hp => ?_⟩ <;>
    simp only at hp
  · simp only at hs
    subst hp
    subst hs
    rfl
  · simp only at hs
    subst hp
    subst hs
    rfl
  · simp only at hs
    subst hp
    subst hs
    rfl
  · subst hp
    rfl

/-- Witness for C7 at concrete slots covering the four cases. -/
theorem c7_witness :
    Responder.get_request (⟨true, false, State.Request 3⟩ : Conn Nat Nat)
        = GetResult.ret (some 3) ⟨true, false, State.InProgress⟩
    ∧ Responder.get_request (⟨true, false, State.Free⟩ : Conn Nat Nat)
        = GetResult.ret none ⟨true, false, State.Free⟩
    ∧ Responder.get_request (⟨true, false, State.InProgress⟩ : Conn Nat Nat)
        = GetResult.fatal ⟨true, true, State.InProgress⟩
    ∧ Responder.get_request (⟨true, true, State.Request 3⟩ : Conn Nat Nat)
        = GetResult.ret none ⟨true, true, State.Request 3⟩ :=
  ⟨(c7_get_request_cases (⟨true, false, State.Request 3⟩ : Conn Nat Nat) 3).1 rfl rfl,
   (c7_get_request_cases (⟨true, false, State.Free⟩ : Conn Nat Nat) 0).2.1 rfl rfl,
   (c7_get_request_cases (⟨true, false, State.InProgress⟩ : Conn Nat Nat) 0).2.2.1 rfl rfl,
   (c7_get_request_cases (⟨true, true, State.Request 3⟩ : Conn Nat Nat) 0).2.2.2 rfl⟩

/-- C8: set_response transitions an InFlight or Requested slot to Replied
with the new value, is fatal on a slot already Replied and on an Empty
slot, and is silently dropped without any state change when the lock is
poisoned. -/
theorem c8_set_response_cases {I O : Type} (w : Conn I O) (i : I) (v o : O) :
    (w.poisoned = false → w.state = State.InProgress →
      Responder.set_response w v = SetResult.ret {w with state := State.Response v})
    ∧ (w.poisoned = false → w.state = State.Request i →
      Responder.set_response w v = SetResult.ret {w with state := State.Response v})
    ∧ (w.poisoned = false → w.state = State.Response o →
      Responder.set_response w v
        = SetResult.fatal {w with poisoned := true, state := State.InProgress})
    ∧ (w.poisoned = false → w.state = State.Free →
      Responder.set_response w v
        = SetResult.fatal {w with poisoned := true, state := State.InProgress})
    ∧ (w.poisoned = true → Responder.set_response w v = SetResult.ret w) := by
  obtain ⟨a, p, st⟩ := w
  refine ⟨fun hp hs => ?_, fun hp hs => ?_, fun hp hs => ?_, fun hp hs => ?_, fun hp => ?_⟩ <;>
    simp only at hp
  · simp only at hs
    subst hp
    subst hs
    rfl
  · simp only at hs
    subst hp
    subst hs
    rfl
  · simp only at hs
    subst hp
    subst hs
    rfl
  · simp only at hs
    subst hp
    subst hs
    rfl
  · subst hp
    rfl

/-- Witness for C8 at concrete slots covering the five cases. -/
theorem c8_witness :
    Responder.set_response (⟨true, false, State.InProgress⟩ : Conn Nat Nat) 9
        = SetResult.ret ⟨true, false, State.Response 9⟩
    ∧ Responder.set_response (⟨true, false, State.Request 3⟩ : Conn Nat Nat) 9
        = SetResult.ret ⟨true, false, State.Response 9⟩
    ∧ Responder.set_response (⟨true, false, State.Response 8⟩ : Conn Nat Nat) 9
        = SetResult.fatal ⟨true, true, State.InProgress⟩
    ∧ Responder.set_response (⟨true, false, State.Free⟩ : Conn Nat Nat) 9
        = SetResult.fatal ⟨true, true, State.InProgress⟩
    ∧ Responder.set_response (⟨true, true, State.Free⟩ : Conn Nat Nat) 9
        = SetResult.ret ⟨true, true, State.Free⟩ :=
  ⟨(c8_set_response_cases (⟨true, false, State.InProgress⟩ : Conn Nat Nat) 0 9 0).1 rfl rfl,
   (c8_set_response_cases (⟨true, false, State.Request 3⟩ : Conn Nat Nat) 3 9 0).2.1 rfl rfl,
   (c8_set_response_cases (⟨true, false, State.Response 8⟩ : Conn Nat Nat) 0 9 8).2.2.1 rfl rfl,
   (c8_set_response_cases (⟨true, false, State.Free⟩ : Conn Nat Nat) 0 9 0).2.2.2.1 rfl rfl,
   (c8_set_response_cases (⟨true, true, State.Free⟩ : Conn Nat Nat) 0 9 0).2.2.2.2 rfl⟩

/-- C9: is_done is false after any operation sequence on a fresh pair in
which the flag is never dropped, and true forever after the flag has been
dropped, panicking or not, whatever operations follow. -/
theorem c9_is_done_iff_flag_dropped :
    (∀ ops : List COp, (∀ b : Bool, COp.dropFlag b ∉ ops) →
      Control.is_done (execOps ops make_pair) = false)
    ∧ ∀ (s : CtrlState) (b : Bool) (ops : List COp),
        Control.is_done (execOps ops (execOp (COp.dropFlag b) s)) = true := by
  constructor
  · intro ops hnd
    have h := execOps_flagExists_true ops make_pair rfl hnd
    simp [Control.is_done, h]
  · intro s b ops
    have h : (execOp (COp.dropFlag b) s).flagExists = false := by
      simp [execOp, Flag.dropFlag]
    have h2 := execOps_flagExists_false ops _ h
    simp [Control.is_done, h2]

/-- Witness for C9: a drop-free sequence including stop leaves is_done
false, and a sequence after a normal drop reads true. -/
theorem c9_witness :
    Control.is_done (execOps [COp.stop, COp.interrupt, COp.alivePoll] make_pair) = false
    ∧ Control.is_done (execOps [COp.stop] (execOp (COp.dropFlag false) make_pair)) = true :=
  ⟨c9_is_done_iff_flag_dropped.1 [COp.stop, COp.interrupt, COp.alivePoll]
      (by intro b; simp),
   c9_is_done_iff_flag_dropped.2 make_pair false [COp.stop]⟩

/-- C10: set_response on a Requested slot silently replaces the pending
input with the new reply, and no get_request in any subsequent run of
responder calls can ever return it: every later get_request yields none. -/
theorem c10_set_response_discards_request {I O : Type} (w : Conn I O) (i : I)
    (v : O) (ops : List (ROp O))
    (hpoison : w.poisoned = false) (hstate : w.state = State.Request i) :
    Responder.set_response w v
        = SetResult.ret ({w with state := State.Response v} : Conn I O)
    ∧ ((runResponder ops ({w with state := State.Response v} : Conn I O)).2.all
          Option.isNone) = true := by
  constructor
  · obtain ⟨a, p, st⟩ := w
    simp only at hpoison hstate
    subst hpoison
    subst hstate
    rfl
  · exact runResponder_all_none ops _ (fun x hx => by cases hx)

/-- Witness for C10: the pending input 3 is discarded by set_response 4
and a later get, set 5, get run returns no input at all. -/
theorem c10_witness :
    Responder.set_response (⟨true, false, State.Request 3⟩ : Conn Nat Nat) 4
        = SetResult.ret ⟨true, false, State.Response 4⟩
    ∧ ((runResponder [ROp.get, ROp.set 5, ROp.get]
          (⟨true, false, State.Response 4⟩ : Conn Nat Nat)).2.all Option.isNone)
        = true :=
  c10_set_response_discards_request ⟨true, false, State.Request 3⟩ 3 4
    [ROp.get, ROp.set 5, ROp.get] rfl rfl

end ThreadControl
